/-
Verification of the DirectWrite font-loading backend
(src/font-renderer/src/directwrite/mod.rs) against its specification.

The Rust module is shallowly embedded below: COM callbacks become pure
Lean functions over explicit state records, engine calls become oracle
records holding the HRESULT each call would return, machine integers
become Nat/Int with explicit `% 2^64` where u64 overflow matters, and
f32 coordinate/metric arithmetic is modelled over ℚ (negation and the
scaling formulas are the properties at stake, not rounding).
-/
import Mathlib

namespace Pathfinder

/-! ## HRESULT model

`winerror::SUCCEEDED(hr)` is `hr >= 0` on `i32` HRESULTs.  The concrete
codes used by the module: `S_OK = 0`, `E_BOUNDS = 0x8000000B` and
`E_INVALIDARG = 0x80070057` (negative as `i32`). -/

def S_OK : Int := 0

def E_BOUNDS : Int := -2147483637

def E_INVALIDARG : Int := -2147024809

def SUCCEEDED (hr : Int) : Bool := 0 ≤ hr

/-- winapi `TRUE` (BOOL is `i32`). -/
def WINAPI_TRUE : Int := 1

/-- winapi `FALSE`. -/
def WINAPI_FALSE : Int := 0

/-! ## Points and path events

`D2D1_POINT_2F` carries two f32 coordinates; `lyon_path::PathEvent` is the
emitted event type.  Coordinates are modelled over ℚ: the sink only ever
negates a coordinate, which is exact in f32. -/

structure Point2F where
  x : ℚ
  y : ℚ
deriving DecidableEq, Repr

/-- `D2D1_BEZIER_SEGMENT`: two control points and an endpoint. -/
structure BezierSegment where
  point1 : Point2F
  point2 : Point2F
  point3 : Point2F
deriving DecidableEq, Repr

/-- `lyon_path::PathEvent` as used by the sink (the Rust enumeration also
has quadratic/arc variants, never produced here). -/
inductive PathEvent where
  | MoveTo (p : Point2F)
  | LineTo (p : Point2F)
  | CubicTo (c1 c2 p : Point2F)
  | Close
deriving DecidableEq, Repr

/-- `D2D1_FIGURE_END_OPEN` (the `D2D1_FIGURE_END` enumeration value 0). -/
def D2D1_FIGURE_END_OPEN : Nat := 0

/-- `D2D1_FIGURE_END_CLOSED` (enumeration value 1). -/
def D2D1_FIGURE_END_CLOSED : Nat := 1

/-! ## Geometry sink (PathfinderGeometrySink) -/

/-- `PathfinderGeometrySink`: accumulates `commands` while the engine's
tessellator drives its callbacks.  (The COM header is immaterial to the
captured sequence and is omitted.) -/
structure PathfinderGeometrySink where
  commands : List PathEvent
deriving DecidableEq, Repr

namespace PathfinderGeometrySink

/-- `d2d_point_2f_to_flipped_f32_point`: negate the Y coordinate. -/
def d2d_point_2f_to_flipped_f32_point (point : Point2F) : Point2F :=
  ⟨point.x, -point.y⟩

/-- `PathfinderGeometrySink::new`: empty command list. -/
def new : PathfinderGeometrySink := ⟨[]⟩

/-- `AddBeziers`: for each segment, push `CubicTo` of the three flipped
points, in order. -/
def AddBeziers (this : PathfinderGeometrySink) (beziers : List BezierSegment) :
    PathfinderGeometrySink :=
  ⟨this.commands ++ beziers.map fun bezier =>
    PathEvent.CubicTo (d2d_point_2f_to_flipped_f32_point bezier.point1)
      (d2d_point_2f_to_flipped_f32_point bezier.point2)
      (d2d_point_2f_to_flipped_f32_point bezier.point3)⟩

/-- `AddLines`: for each point, push `LineTo` of the flipped point. -/
def AddLines (this : PathfinderGeometrySink) (points : List Point2F) :
    PathfinderGeometrySink :=
  ⟨this.commands ++ points.map fun point =>
    PathEvent.LineTo (d2d_point_2f_to_flipped_f32_point point)⟩

/-- `BeginFigure`: push `MoveTo` of the flipped start point (the
`D2D1_FIGURE_BEGIN` argument is ignored by the code). -/
def BeginFigure (this : PathfinderGeometrySink) (start_point : Point2F)
    (_figure_begin : Nat) : PathfinderGeometrySink :=
  ⟨this.commands ++ [PathEvent.MoveTo (d2d_point_2f_to_flipped_f32_point start_point)]⟩

/-- `EndFigure`: push `Close` iff the flag equals `D2D1_FIGURE_END_CLOSED`. -/
def EndFigure (this : PathfinderGeometrySink) (figure_end : Nat) :
    PathfinderGeometrySink :=
  if figure_end = D2D1_FIGURE_END_CLOSED then ⟨this.commands ++ [PathEvent.Close]⟩
  else this

/-- `SetFillMode`: accepted and ignored. -/
def SetFillMode (this : PathfinderGeometrySink) (_mode : Nat) :
    PathfinderGeometrySink := this

/-- `SetSegmentFlags`: accepted and ignored. -/
def SetSegmentFlags (this : PathfinderGeometrySink) (_flags : Nat) :
    PathfinderGeometrySink := this

end PathfinderGeometrySink

/-- One callback of the tessellation stream the engine drives into the sink
during `GetGlyphRunOutline`. -/
inductive SinkCallback where
  | beginFigure (start_point : Point2F) (figure_begin : Nat)
  | addLines (points : List Point2F)
  | addBeziers (beziers : List BezierSegment)
  | endFigure (figure_end : Nat)
  | setFillMode (mode : Nat)
  | setSegmentFlags (flags : Nat)
deriving DecidableEq, Repr

/-- Dispatch one callback to the sink. -/
def runCallback (sink : PathfinderGeometrySink) : SinkCallback → PathfinderGeometrySink
  | .beginFigure p fb => sink.BeginFigure p fb
  | .addLines ps => sink.AddLines ps
  | .addBeziers bs => sink.AddBeziers bs
  | .endFigure fe => sink.EndFigure fe
  | .setFillMode m => sink.SetFillMode m
  | .setSegmentFlags f => sink.SetSegmentFlags f

/-- Run a whole (strictly ordered, synchronous) callback sequence. -/
def runCallbacks (sink : PathfinderGeometrySink) (cbs : List SinkCallback) :
    PathfinderGeometrySink :=
  cbs.foldl runCallback sink

/-- The events one callback appends (the sink only ever appends). -/
def callbackEvents : SinkCallback → List PathEvent
  | .beginFigure p _ =>
      [PathEvent.MoveTo (PathfinderGeometrySink.d2d_point_2f_to_flipped_f32_point p)]
  | .addLines ps => ps.map fun point =>
      PathEvent.LineTo (PathfinderGeometrySink.d2d_point_2f_to_flipped_f32_point point)
  | .addBeziers bs => bs.map fun bezier =>
      PathEvent.CubicTo
        (PathfinderGeometrySink.d2d_point_2f_to_flipped_f32_point bezier.point1)
        (PathfinderGeometrySink.d2d_point_2f_to_flipped_f32_point bezier.point2)
        (PathfinderGeometrySink.d2d_point_2f_to_flipped_f32_point bezier.point3)
  | .endFigure fe => if fe = D2D1_FIGURE_END_CLOSED then [PathEvent.Close] else []
  | .setFillMode _ => []
  | .setSegmentFlags _ => []

/-! ## Well-formedness of callback streams and event sequences -/

/-- One figure of a well-formed tessellation stream: opened by
`BeginFigure`, populated by `AddLines`/`AddBeziers` in any order, ended by
`EndFigure`. -/
structure Figure where
  start_point : Point2F
  figure_begin : Nat
  body : List (List Point2F ⊕ List BezierSegment)
  figure_end : Nat
deriving DecidableEq, Repr

/-- The callback stream of one figure. -/
def Figure.callbacks (fig : Figure) : List SinkCallback :=
  SinkCallback.beginFigure fig.start_point fig.figure_begin ::
    (fig.body.map fun seg =>
      match seg with
      | .inl ps => SinkCallback.addLines ps
      | .inr bs => SinkCallback.addBeziers bs) ++
    [SinkCallback.endFigure fig.figure_end]

/-- A well-formed callback sequence: a concatenation of figures. -/
def figuresToCallbacks (figs : List Figure) : List SinkCallback :=
  figs.flatMap Figure.callbacks

/-- Scan for the "every `Close` is preceded by an unmatched `MoveTo` since
the last `Close`" condition.  `seenMove` records whether a `MoveTo` has
occurred since the last `Close` (initially `false`). -/
def closesMatched (seenMove : Bool) : List PathEvent → Bool
  | [] => true
  | PathEvent.MoveTo _ :: rest => closesMatched true rest
  | PathEvent.Close :: rest => seenMove && closesMatched false rest
  | _ :: rest => closesMatched seenMove rest

/-- The sequence is empty or starts with `MoveTo`. -/
def startsWithMoveTo : List PathEvent → Bool
  | [] => true
  | PathEvent.MoveTo _ :: _ => true
  | _ => false

/-- A well-formed event sequence: if non-empty it starts with `MoveTo`,
and every `Close` is preceded by an unmatched `MoveTo` since the last
`Close`. -/
def wfEvents (events : List PathEvent) : Bool :=
  startsWithMoveTo events && closesMatched false events

/-! ## COM object runtime -/

/-- Modelled from the spec: the shared reference-counted COM object base
(`PathfinderComObject`, defined in `src/font-renderer/src/directwrite/com.rs`,
which is not present under `src/`) carries an integer reference count
initialized to one at construction; `AddRef` increments it and `Release`
decrements it, deallocating at zero. -/
structure PathfinderComObject where
  ref_count : Nat
deriving DecidableEq, Repr

/-- Modelled from the spec: construction initializes the count to one. -/
def PathfinderComObject.construct : PathfinderComObject := ⟨1⟩

/-- Modelled from the spec: `AddRef` increments the reference count. -/
def PathfinderComObject.AddRef (this : PathfinderComObject) : PathfinderComObject :=
  ⟨this.ref_count + 1⟩

/-! ## Reserved loader keys -/

/-- `PATHFINDER_FONT_COLLECTION_KEY`: the bytes of `b"MEMORY_COLLECTION"`. -/
def PATHFINDER_FONT_COLLECTION_KEY : List Nat :=
  [77, 69, 77, 79, 82, 89, 95, 67, 79, 76, 76, 69, 67, 84, 73, 79, 78]

/-- `PATHFINDER_FONT_FILE_KEY`: the bytes of `b"MEMORY_FILE"`. -/
def PATHFINDER_FONT_FILE_KEY : List Nat :=
  [77, 69, 77, 79, 82, 89, 95, 70, 73, 76, 69]

/-- The u64 modulus: Rust release-mode `u64` addition wraps modulo `2^64`. -/
def U64_MOD : Nat := 2 ^ 64

/-! ## PathfinderFontFileStream -/

/-- `PathfinderFontFileStream`: COM header, shared byte buffer, and the
creation-time timestamp captured once from `GetSystemTimeAsFileTime`. -/
structure PathfinderFontFileStream where
  object : PathfinderComObject
  buffer : List Nat
  creation_time : Nat
deriving DecidableEq, Repr

/-- `PathfinderFontFileStream::new`: fresh COM object (count one), the
shared buffer, and the current system time (`now`, a u64 FILETIME value
combined from its two halves) as `creation_time`. -/
def PathfinderFontFileStream.new (buffer : List Nat) (now : Nat) :
    PathfinderFontFileStream :=
  ⟨PathfinderComObject.construct, buffer, now⟩

/-- `GetFileSize`: writes the buffer length, returns `S_OK`. -/
def PathfinderFontFileStream.GetFileSize (this : PathfinderFontFileStream) :
    Nat × Int :=
  (this.buffer.length, S_OK)

/-- `GetLastWriteTime`: writes the stored creation time, returns `S_OK`. -/
def PathfinderFontFileStream.GetLastWriteTime (this : PathfinderFontFileStream) :
    Nat × Int :=
  (this.creation_time, S_OK)

/-- Outcome of `ReadFileFragment`.  The two out-parameters are `none` when
the call returns without writing them (the error path); `fragment_start`
is the byte offset into the shared buffer of the returned pointer
(`buffer.as_ptr().offset(file_offset)`), and `fragment_context` is the
same pointer. -/
structure ReadFragmentResult where
  fragment_start : Option Nat
  fragment_context : Option Nat
  stream : PathfinderFontFileStream
  hresult : Int
deriving DecidableEq, Repr

/-- `ReadFileFragment(offset, length)`: `buffer_length` is the buffer size
as u64; fails with `E_BOUNDS` when `file_offset > buffer_length` or when
the (wrapping, u64) sum `file_offset + fragment_size` exceeds
`buffer_length`; otherwise writes a pointer at `file_offset` into the
shared buffer plus the fragment context and takes one extra reference on
the stream (`AddRef`). -/
def PathfinderFontFileStream.ReadFileFragment (this : PathfinderFontFileStream)
    (file_offset fragment_size : Nat) : ReadFragmentResult :=
  let buffer_length := this.buffer.length
  if file_offset > buffer_length ∨ (file_offset + fragment_size) % U64_MOD > buffer_length
  then ⟨none, none, this, E_BOUNDS⟩
  else ⟨some file_offset, some file_offset,
    { this with object := this.object.AddRef }, S_OK⟩

/-! ## PathfinderFontFileLoader -/

/-- `PathfinderFontFileLoader`: COM header and the shared font buffer. -/
structure PathfinderFontFileLoader where
  object : PathfinderComObject
  buffer : List Nat
deriving DecidableEq, Repr

/-- Outcome of `CreateStreamFromKey`: the out-parameter (null modelled as
`none`) and the HRESULT. -/
structure CreateStreamResult where
  font_file_stream : Option PathfinderFontFileStream
  hresult : Int
deriving DecidableEq, Repr

/-- `CreateStreamFromKey`: the reference key (received as pointer plus
size, i.e. a byte string) must equal `PATHFINDER_FONT_FILE_KEY`; on
mismatch writes null and returns `E_INVALIDARG`; on match constructs a
new `PathfinderFontFileStream` wrapping the loader's buffer (`now` is the
system time the stream constructor reads). -/
def PathfinderFontFileLoader.CreateStreamFromKey (this : PathfinderFontFileLoader)
    (font_file_reference_key : List Nat) (now : Nat) : CreateStreamResult :=
  if font_file_reference_key ≠ PATHFINDER_FONT_FILE_KEY then ⟨none, E_INVALIDARG⟩
  else ⟨some (PathfinderFontFileStream.new this.buffer now), S_OK⟩

/-! ## PathfinderFontFileEnumerator -/

/-- `PathfinderFontFileEnumeratorState`. -/
inductive PathfinderFontFileEnumeratorState where
  | Start
  | AtFontFile
  | End
deriving DecidableEq, Repr

/-- `PathfinderFontFileEnumerator`: COM header, factory and font-file
handles (opaque engine handles modelled as `Nat`), and the cursor state. -/
structure PathfinderFontFileEnumerator where
  object : PathfinderComObject
  factory : Nat
  font_file : Nat
  state : PathfinderFontFileEnumeratorState
deriving DecidableEq, Repr

/-- `PathfinderFontFileEnumerator::new`: state starts at `Start`. -/
def PathfinderFontFileEnumerator.new (factory font_file : Nat) :
    PathfinderFontFileEnumerator :=
  ⟨PathfinderComObject.construct, factory, font_file, .Start⟩

/-- Outcome of `GetCurrentFontFile`: out-parameter (null as `none`) and
HRESULT. -/
structure GetCurrentFontFileResult where
  font_file : Option Nat
  hresult : Int
deriving DecidableEq, Repr

/-- `GetCurrentFontFile`: unless the state is `AtFontFile`, writes null
and returns `E_BOUNDS`; otherwise writes (a clone of) the one wrapped
font file and returns `S_OK`. -/
def PathfinderFontFileEnumerator.GetCurrentFontFile
    (this : PathfinderFontFileEnumerator) : GetCurrentFontFileResult :=
  if this.state ≠ PathfinderFontFileEnumeratorState.AtFontFile then ⟨none, E_BOUNDS⟩
  else ⟨some this.font_file, S_OK⟩

/-- Outcome of `MoveNext`: updated enumerator, the `has_current_file`
BOOL out-parameter, and the HRESULT. -/
structure MoveNextResult where
  enumerator : PathfinderFontFileEnumerator
  has_current_file : Int
  hresult : Int
deriving DecidableEq, Repr

/-- `MoveNext`: Start → AtFontFile writing `TRUE`; AtFontFile → End
writing `FALSE`; End stays End writing `FALSE`; always returns `S_OK`. -/
def PathfinderFontFileEnumerator.MoveNext (this : PathfinderFontFileEnumerator) :
    MoveNextResult :=
  match this.state with
  | .Start => ⟨{ this with state := .AtFontFile }, WINAPI_TRUE, S_OK⟩
  | .AtFontFile => ⟨{ this with state := .End }, WINAPI_FALSE, S_OK⟩
  | .End => ⟨this, WINAPI_FALSE, S_OK⟩

/-! ## PathfinderFontCollectionLoader -/

/-- `PathfinderFontCollectionLoader`: COM header and the one previously
created font file (opaque handle). -/
structure PathfinderFontCollectionLoader where
  object : PathfinderComObject
  font_file : Nat
deriving DecidableEq, Repr

/-- Outcome of `CreateEnumeratorFromKey`. -/
structure CreateEnumeratorResult where
  font_file_enumerator : Option PathfinderFontFileEnumerator
  hresult : Int
deriving DecidableEq, Repr

/-- `CreateEnumeratorFromKey`: the collection key and its size are
received but bound to `_` in the source and never examined; the call
always constructs a fresh enumerator over the loader's single font file
and returns `S_OK`. -/
def PathfinderFontCollectionLoader.CreateEnumeratorFromKey
    (this : PathfinderFontCollectionLoader) (factory : Nat)
    (_font_collection_key : List Nat) : CreateEnumeratorResult :=
  ⟨some (PathfinderFontFileEnumerator.new factory this.font_file), S_OK⟩

/-! ## Font context and engine oracles

The DirectWrite engine is an external collaborator: each engine call made
by a context method is modelled by an oracle record holding the HRESULT
that call returns (single-success convention: `SUCCEEDED`) together with
the values it writes. -/

/-- `FontContext`: factory handle and the catalog
`dwrite_font_faces : BTreeMap<FK, IDWriteFontFace>` (face handles are
opaque `Nat`, the map is modelled extensionally; `BTreeMap` keeps at most
one entry per key, which the function model preserves by construction). -/
structure FontContext (FK : Type) where
  dwrite_factory : Nat
  dwrite_font_faces : FK → Option Nat

/-- `BTreeMap::insert`: replaces any previous entry for the key. -/
def mapInsert {FK : Type} [DecidableEq FK] (m : FK → Option Nat) (k : FK)
    (v : Nat) : FK → Option Nat :=
  fun q => if q = k then some v else m q

/-- One engine call issued by `add_font_from_memory`, in order. -/
inductive EngineCall where
  | registerFontFileLoader
  | createCustomFontFileReference (key : List Nat)
  | registerFontCollectionLoader
  | createCustomFontCollection (key : List Nat)
  | getFontFamily (index : Nat)
  | getFont (index : Nat)
  | createFontFace
  | unregisterFontCollectionLoader
  | unregisterFontFileLoader
deriving DecidableEq, Repr

/-- Oracle for the nine engine calls of `add_font_from_memory`, plus the
face handle `CreateFontFace` would materialize. -/
structure MemoryFontEngine where
  register_font_file_loader_result : Int
  create_font_file_reference_result : Int
  register_font_collection_loader_result : Int
  create_font_collection_result : Int
  get_font_family_result : Int
  get_font_result : Int
  create_font_face_result : Int
  unregister_font_collection_loader_result : Int
  unregister_font_file_loader_result : Int
  new_font_face : Nat
deriving DecidableEq, Repr

/-- All nine engine steps of one `add_font_from_memory` attempt succeed. -/
def MemoryFontEngine.allSucceeded (eng : MemoryFontEngine) : Bool :=
  SUCCEEDED eng.register_font_file_loader_result &&
  SUCCEEDED eng.create_font_file_reference_result &&
  SUCCEEDED eng.register_font_collection_loader_result &&
  SUCCEEDED eng.create_font_collection_result &&
  SUCCEEDED eng.get_font_family_result &&
  SUCCEEDED eng.get_font_result &&
  SUCCEEDED eng.create_font_face_result &&
  SUCCEEDED eng.unregister_font_collection_loader_result &&
  SUCCEEDED eng.unregister_font_file_loader_result

/-- Outcome of `add_font_from_memory` / `add_system_font`: the `Result`,
the updated context, and the trace of engine calls actually issued. -/
structure AddFontOutcome (FK : Type) where
  result : Except Unit Unit
  context : FontContext FK
  engine_calls : List EngineCall

/-- `FontContext::add_font_from_memory(font_key, bytes, _)`: registers the
file loader, creates the custom font-file reference under
`PATHFINDER_FONT_FILE_KEY`, registers the collection loader, creates the
custom collection under `PATHFINDER_FONT_COLLECTION_KEY`, takes family 0,
font 0, creates the face, unregisters both loaders, and only then inserts
the face into the catalog; every failed step returns `Err(())` at once.
The `bytes` argument is the shared buffer handed to the file loader. -/
def FontContext.add_font_from_memory {FK : Type} [DecidableEq FK]
    (self : FontContext FK) (eng : MemoryFontEngine) (font_key : FK)
    (_bytes : List Nat) : AddFontOutcome FK :=
  let t1 : List EngineCall := [.registerFontFileLoader]
  if ¬ SUCCEEDED eng.register_font_file_loader_result then ⟨.error (), self, t1⟩ else
  let t2 := t1 ++ [.createCustomFontFileReference PATHFINDER_FONT_FILE_KEY]
  if ¬ SUCCEEDED eng.create_font_file_reference_result then ⟨.error (), self, t2⟩ else
  let t3 := t2 ++ [.registerFontCollectionLoader]
  if ¬ SUCCEEDED eng.register_font_collection_loader_result then ⟨.error (), self, t3⟩ else
  let t4 := t3 ++ [.createCustomFontCollection PATHFINDER_FONT_COLLECTION_KEY]
  if ¬ SUCCEEDED eng.create_font_collection_result then ⟨.error (), self, t4⟩ else
  let t5 := t4 ++ [.getFontFamily 0]
  if ¬ SUCCEEDED eng.get_font_family_result then ⟨.error (), self, t5⟩ else
  let t6 := t5 ++ [.getFont 0]
  if ¬ SUCCEEDED eng.get_font_result then ⟨.error (), self, t6⟩ else
  let t7 := t6 ++ [.createFontFace]
  if ¬ SUCCEEDED eng.create_font_face_result then ⟨.error (), self, t7⟩ else
  let t8 := t7 ++ [.unregisterFontCollectionLoader]
  if ¬ SUCCEEDED eng.unregister_font_collection_loader_result then ⟨.error (), self, t8⟩ else
  let t9 := t8 ++ [.unregisterFontFileLoader]
  if ¬ SUCCEEDED eng.unregister_font_file_loader_result then ⟨.error (), self, t9⟩ else
  ⟨.ok (),
    { self with dwrite_font_faces :=
        mapInsert self.dwrite_font_faces font_key eng.new_font_face },
    t9⟩

/-- Oracle for the engine calls of `add_system_font`. `family_exists` is
the BOOL written by `FindFamilyName`; the code compares it to `FALSE`. -/
structure SystemFontEngine where
  get_system_font_collection_result : Int
  find_family_name_result : Int
  family_exists : Int
  family_index : Nat
  get_font_family_result : Int
  get_first_matching_font_result : Int
  create_font_face_result : Int
  new_font_face : Nat
deriving DecidableEq, Repr

/-- One engine call issued by `add_system_font`, in order. -/
inductive SystemEngineCall where
  | getSystemFontCollection
  | findFamilyName (name : String)
  | getFontFamily (index : Nat)
  | getFirstMatchingFont
  | createFontFace
deriving DecidableEq, Repr

/-- Outcome of `add_system_font`. -/
structure AddSystemFontOutcome (FK : Type) where
  result : Except Unit Unit
  context : FontContext FK
  engine_calls : List SystemEngineCall

/-- `FontContext::add_system_font(font_key, name, _)`: fetches the system
collection, looks up the family name (failing when the call fails or the
`exists` BOOL equals `FALSE`), fetches that family, takes its first font
matching the fixed normal weight/stretch/style triple, creates the face,
and inserts it into the catalog. -/
def FontContext.add_system_font {FK : Type} [DecidableEq FK]
    (self : FontContext FK) (eng : SystemFontEngine) (font_key : FK)
    (name : String) : AddSystemFontOutcome FK :=
  let t1 : List SystemEngineCall := [.getSystemFontCollection]
  if ¬ SUCCEEDED eng.get_system_font_collection_result then ⟨.error (), self, t1⟩ else
  let t2 := t1 ++ [.findFamilyName name]
  if ¬ SUCCEEDED eng.find_family_name_result then ⟨.error (), self, t2⟩ else
  if eng.family_exists = WINAPI_FALSE then ⟨.error (), self, t2⟩ else
  let t3 := t2 ++ [.getFontFamily eng.family_index]
  if ¬ SUCCEEDED eng.get_font_family_result then ⟨.error (), self, t3⟩ else
  let t4 := t3 ++ [.getFirstMatchingFont]
  if ¬ SUCCEEDED eng.get_first_matching_font_result then ⟨.error (), self, t4⟩ else
  let t5 := t4 ++ [.createFontFace]
  if ¬ SUCCEEDED eng.create_font_face_result then ⟨.error (), self, t5⟩ else
  ⟨.ok (),
    { self with dwrite_font_faces :=
        mapInsert self.dwrite_font_faces font_key eng.new_font_face },
    t5⟩

/-! ## Metric and outline queries -/

/-- `DWRITE_FONT_METRICS` (only `designUnitsPerEm`, a UINT16, is read). -/
structure DWRITE_FONT_METRICS where
  designUnitsPerEm : Nat
deriving DecidableEq, Repr

/-- `DWRITE_GLYPH_METRICS`: design-unit bearings (INT32) and advances
(UINT32). -/
structure DWRITE_GLYPH_METRICS where
  leftSideBearing : Int
  advanceWidth : Nat
  rightSideBearing : Int
  topSideBearing : Int
  advanceHeight : Nat
  bottomSideBearing : Int
deriving DecidableEq, Repr

/-- `FontInstance`: font key plus requested pixel size
(`size.to_f32_px()` modelled as an exact rational). -/
structure FontInstance (FK : Type) where
  font_key : FK
  size : ℚ

/-- `GlyphKey`: engine-assigned glyph index. -/
structure GlyphKey where
  glyph_index : Nat
deriving DecidableEq, Repr

/-- Rust's `f32 as u32` cast: saturating, truncating toward zero. -/
def f32_as_u32 (q : ℚ) : Nat :=
  min (max ⌊q⌋ 0).toNat (2 ^ 32 - 1)

/-- Modelled from the spec: the `GlyphDimensions` record lives in the
crate root (`src/font-renderer/src/lib.rs`, not present under `src/`);
it carries the scaled `advance`, `origin` and `size`.  The two `size`
components are produced by explicit `as u32` casts in the source; the
`origin` components are produced by inferred casts (`as _`) and are kept
exact per the spec's formulas. -/
structure GlyphDimensions where
  advance : ℚ
  origin : Point2F
  size_width : Nat
  size_height : Nat
deriving DecidableEq, Repr

/-- Oracle for the two engine calls of `glyph_dimensions`: `GetMetrics`
(infallible, writes the font metrics) and `GetDesignGlyphMetrics`
(HRESULT plus the glyph metrics it writes). -/
structure GlyphMetricsEngine where
  font_metrics : DWRITE_FONT_METRICS
  get_design_glyph_metrics_result : Int
  glyph_metrics : DWRITE_GLYPH_METRICS
deriving DecidableEq, Repr

/-- `FontContext::glyph_dimensions(font_instance, glyph_key, _exact)`:
`None` when the key is absent or the metrics call fails; otherwise every
design-unit metric is scaled by `size / designUnitsPerEm` and packed as
`advance`, `origin = (lsb, bsb)`,
`size = ((advance - rsb - lsb) as u32, (advance_h - bsb - tsb) as u32)`.
Returns the (unmodified, `&self`) context alongside for frame reasoning. -/
def FontContext.glyph_dimensions {FK : Type} (self : FontContext FK)
    (eng : GlyphMetricsEngine) (font_instance : FontInstance FK)
    (_glyph_key : GlyphKey) (_exact : Bool) :
    Option GlyphDimensions × FontContext FK :=
  match self.dwrite_font_faces font_instance.font_key with
  | none => (none, self)
  | some _ =>
    if ¬ SUCCEEDED eng.get_design_glyph_metrics_result then (none, self)
    else
      let upem : ℚ := (eng.font_metrics.designUnitsPerEm : ℚ)
      let advance := (eng.glyph_metrics.advanceWidth : ℚ) * font_instance.size / upem
      let advance_h := (eng.glyph_metrics.advanceHeight : ℚ) * font_instance.size / upem
      let left_side_bearing := (eng.glyph_metrics.leftSideBearing : ℚ) * font_instance.size / upem
      let right_side_bearing := (eng.glyph_metrics.rightSideBearing : ℚ) * font_instance.size / upem
      let bottom_side_bearing := (eng.glyph_metrics.bottomSideBearing : ℚ) * font_instance.size / upem
      let top_side_bearing := (eng.glyph_metrics.topSideBearing : ℚ) * font_instance.size / upem
      (some
        { advance := advance
          origin := ⟨left_side_bearing, bottom_side_bearing⟩
          size_width := f32_as_u32 (advance - right_side_bearing - left_side_bearing)
          size_height := f32_as_u32 (advance_h - bottom_side_bearing - top_side_bearing) },
        self)

/-- `GlyphOutline`: the captured event list, moved out of the sink. -/
structure GlyphOutline where
  events : List PathEvent
deriving DecidableEq, Repr

/-- Oracle for `glyph_outline`'s engine calls: `GetMetrics` plus
`GetGlyphRunOutline`, whose tessellation drives `callbacks` into the
fresh sink before returning its HRESULT. -/
structure GlyphOutlineEngine where
  font_metrics : DWRITE_FONT_METRICS
  get_glyph_run_outline_result : Int
  callbacks : List SinkCallback
deriving DecidableEq, Repr

/-- `FontContext::glyph_outline(font_instance, glyph_key)` (`&mut self`):
fails when the key is absent or `GetGlyphRunOutline` fails; otherwise
moves the fresh sink's captured commands out.  The catalog is never
touched; the context is returned to mirror the mutable receiver. -/
def FontContext.glyph_outline {FK : Type} (self : FontContext FK)
    (eng : GlyphOutlineEngine) (font_instance : FontInstance FK)
    (_glyph_key : GlyphKey) : Except Unit GlyphOutline × FontContext FK :=
  match self.dwrite_font_faces font_instance.font_key with
  | none => (.error (), self)
  | some _ =>
    let geometry_sink := runCallbacks PathfinderGeometrySink.new eng.callbacks
    if ¬ SUCCEEDED eng.get_glyph_run_outline_result then (.error (), self)
    else (.ok ⟨geometry_sink.commands⟩, self)

/-- Oracle for `GetGlyphIndices`: its HRESULT and the u16 indices it
writes (one per input character). -/
structure GlyphIndicesEngine where
  get_glyph_indices_result : Int
  glyph_indices : List Nat
deriving DecidableEq, Repr

/-- `FontContext::load_glyph_indices_for_characters(font_instance, characters)`
(`&self`): fails when the key is absent or the batch lookup fails;
otherwise returns the engine-written indices, one per input character. -/
def FontContext.load_glyph_indices_for_characters {FK : Type}
    (self : FontContext FK) (eng : GlyphIndicesEngine)
    (font_instance : FontInstance FK) (characters : List Nat) :
    Except Unit (List Nat) × FontContext FK :=
  match self.dwrite_font_faces font_instance.font_key with
  | none => (.error (), self)
  | some _ =>
    if ¬ SUCCEEDED eng.get_glyph_indices_result then (.error (), self)
    else (.ok (eng.glyph_indices.take characters.length), self)

/-- `FontContext::pixels_per_unit(font_instance)` (`&self`): fails when
the key is absent; otherwise returns `designUnitsPerEm as f32` from
`GetMetrics`. -/
def FontContext.pixels_per_unit {FK : Type} (self : FontContext FK)
    (font_metrics : DWRITE_FONT_METRICS) (font_instance : FontInstance FK) :
    Except Unit ℚ × FontContext FK :=
  match self.dwrite_font_faces font_instance.font_key with
  | none => (.error (), self)
  | some _ => (.ok (font_metrics.designUnitsPerEm : ℚ), self)

/-! ## Helper lemmas -/

theorem runCallback_commands (sink : PathfinderGeometrySink) (cb : SinkCallback) :
    (runCallback sink cb).commands = sink.commands ++ callbackEvents cb := by
  cases cb <;>
    simp [runCallback, callbackEvents, PathfinderGeometrySink.AddBeziers,
      PathfinderGeometrySink.AddLines, PathfinderGeometrySink.BeginFigure,
      PathfinderGeometrySink.EndFigure, PathfinderGeometrySink.SetFillMode,
      PathfinderGeometrySink.SetSegmentFlags]
  next fe =>
    by_cases h : fe = D2D1_FIGURE_END_CLOSED <;> simp [h]

theorem runCallbacks_commands (sink : PathfinderGeometrySink)
    (cbs : List SinkCallback) :
    (runCallbacks sink cbs).commands = sink.commands ++ cbs.flatMap callbackEvents := by
  induction cbs generalizing sink with
  | nil => simp [runCallbacks]
  | cons cb rest ih =>
      simp only [runCallbacks, List.foldl_cons, List.flatMap_cons]
      rw [show List.foldl runCallback (runCallback sink cb) rest =
            runCallbacks (runCallback sink cb) rest from rfl, ih,
        runCallback_commands, List.append_assoc]

theorem closesMatched_append_figure (fig : Figure) (rest : List PathEvent)
    (b : Bool) :
    closesMatched b (fig.callbacks.flatMap callbackEvents ++ rest) =
      closesMatched (decide (fig.figure_end ≠ D2D1_FIGURE_END_CLOSED)) rest := by
  simp only [Figure.callbacks, List.flatMap_cons, List.flatMap_append,
    callbackEvents, List.cons_append, List.append_assoc]
  rw [closesMatched]
  have hmid : ∀ (segs : List (List Point2F ⊕ List BezierSegment)) (tail : List PathEvent),
      closesMatched true
        ((segs.map fun seg =>
          match seg with
          | .inl ps => SinkCallback.addLines ps
          | .inr bs => SinkCallback.addBeziers bs).flatMap callbackEvents ++ tail) =
        closesMatched true tail := by
    intro segs
    induction segs with
    | nil => intro tail; simp
    | cons seg segs ih =>
        intro tail
        cases seg with
        | inl ps =>
            simp only [List.map_cons, List.flatMap_cons, callbackEvents,
              List.append_assoc]
            have hl : ∀ (qs : List Point2F) (t : List PathEvent),
                closesMatched true
                  ((qs.map fun point => PathEvent.LineTo
                    (PathfinderGeometrySink.d2d_point_2f_to_flipped_f32_point point)) ++ t) =
                  closesMatched true t := by
              intro qs
              induction qs with
              | nil => intro t; simp
              | cons q qs ihq => intro t; simpa [closesMatched] using ihq t
            rw [hl, ih]
        | inr bs =>
            simp only [List.map_cons, List.flatMap_cons, callbackEvents,
              List.append_assoc]
            have hb : ∀ (cs : List BezierSegment) (t : List PathEvent),
                closesMatched true
                  ((cs.map fun bezier => PathEvent.CubicTo
                    (PathfinderGeometrySink.d2d_point_2f_to_flipped_f32_point bezier.point1)
                    (PathfinderGeometrySink.d2d_point_2f_to_flipped_f32_point bezier.point2)
                    (PathfinderGeometrySink.d2d_point_2f_to_flipped_f32_point bezier.point3)) ++ t) =
                  closesMatched true t := by
              intro cs
              induction cs with
              | nil => intro t; simp
              | cons c cs ihc => intro t; simpa [closesMatched] using ihc t
            rw [hb, ih]
  simp only [List.nil_append, List.flatMap_nil]
  rw [hmid]
  by_cases h : fig.figure_end = D2D1_FIGURE_END_CLOSED
  · simp [h, closesMatched]
  · simp [h, closesMatched]

theorem closesMatched_figures (figs : List Figure) (b : Bool) :
    closesMatched b ((figuresToCallbacks figs).flatMap callbackEvents) = true := by
  induction figs generalizing b with
  | nil => simp [figuresToCallbacks, closesMatched]
  | cons fig figs ih =>
      simp only [figuresToCallbacks, List.flatMap_cons, List.flatMap_append]
      rw [show (Figure.callbacks fig).flatMap callbackEvents ++
            (figs.flatMap Figure.callbacks).flatMap callbackEvents =
            (Figure.callbacks fig).flatMap callbackEvents ++
            ((figs.flatMap Figure.callbacks).flatMap callbackEvents ++ []) by simp,
        closesMatched_append_figure]
      simpa [figuresToCallbacks] using
        ih (decide (fig.figure_end ≠ D2D1_FIGURE_END_CLOSED))

theorem wfEvents_figures (figs : List Figure) :
    wfEvents ((figuresToCallbacks figs).flatMap callbackEvents) = true := by
  rw [wfEvents, Bool.and_eq_true]
  refine ⟨?_, closesMatched_figures figs false⟩
  cases figs with
  | nil => rfl
  | cons fig figs =>
      simp [figuresToCallbacks, Figure.callbacks, callbackEvents, startsWithMoveTo]

/-! ## Claims -/

/-- C4: for every well-formed tessellation callback sequence (each figure
opened by `BeginFigure`, populated by `AddLines`/`AddBeziers`, ended by
`EndFigure`), the event sequence the Geometry Sink captures and
`glyph_outline` returns is well-formed: if non-empty its first event is
`MoveTo`, and every `Close` is preceded by an unmatched `MoveTo` since the
last `Close`. -/
theorem c4_outline_events_wellformed {FK : Type} (self : FontContext FK)
    (eng : GlyphOutlineEngine) (font_instance : FontInstance FK)
    (glyph_key : GlyphKey) (figs : List Figure) (outline : GlyphOutline)
    (hcb : eng.callbacks = figuresToCallbacks figs)
    (hok : (self.glyph_outline eng font_instance glyph_key).1 = Except.ok outline) :
    wfEvents outline.events = true := by
  unfold FontContext.glyph_outline at hok
  cases hfind : self.dwrite_font_faces font_instance.font_key with
  | none => rw [hfind] at hok; simp at hok
  | some face =>
      rw [hfind] at hok
      split at hok
      · simp at hok
      · split at hok
        · simp at hok
        · simp only [Except.ok.injEq, GlyphOutline.mk.injEq] at hok
          rw [← hok, hcb, runCallbacks_commands]
          simpa [PathfinderGeometrySink.new] using wfEvents_figures figs

/-- C4 witness: a concrete one-figure stream yields a well-formed
sequence through `glyph_outline`. -/
theorem c4_outline_events_wellformed_witness :
    wfEvents (GlyphOutline.mk [PathEvent.MoveTo ⟨1, -2⟩, PathEvent.Close]).events = true :=
  @c4_outline_events_wellformed Nat ⟨0, fun _ => some 5⟩
    ⟨⟨1000⟩, S_OK, figuresToCallbacks [⟨⟨1, 2⟩, 1, [], 1⟩]⟩ ⟨0, 12⟩ ⟨3⟩
    [⟨⟨1, 2⟩, 1, [], 1⟩] ⟨[PathEvent.MoveTo ⟨1, -2⟩, PathEvent.Close]⟩
    rfl rfl

/-- C5: the enumerator is a three-state machine: `MoveNext` sends Start to
AtFontFile reporting `TRUE`, AtFontFile to End reporting `FALSE`, leaves
End at End reporting `FALSE`; `GetCurrentFontFile` returns the single
wrapped font file exactly in state AtFontFile and fails with `E_BOUNDS`
in every other state. -/
theorem c5_enumerator_three_state (obj : PathfinderComObject)
    (factory font_file : Nat) :
    (PathfinderFontFileEnumerator.MoveNext ⟨obj, factory, font_file, .Start⟩ =
      ⟨⟨obj, factory, font_file, .AtFontFile⟩, WINAPI_TRUE, S_OK⟩) ∧
    (PathfinderFontFileEnumerator.MoveNext ⟨obj, factory, font_file, .AtFontFile⟩ =
      ⟨⟨obj, factory, font_file, .End⟩, WINAPI_FALSE, S_OK⟩) ∧
    (PathfinderFontFileEnumerator.MoveNext ⟨obj, factory, font_file, .End⟩ =
      ⟨⟨obj, factory, font_file, .End⟩, WINAPI_FALSE, S_OK⟩) ∧
    (PathfinderFontFileEnumerator.GetCurrentFontFile ⟨obj, factory, font_file, .AtFontFile⟩ =
      ⟨some font_file, S_OK⟩) ∧
    (PathfinderFontFileEnumerator.GetCurrentFontFile ⟨obj, factory, font_file, .Start⟩ =
      ⟨none, E_BOUNDS⟩) ∧
    (PathfinderFontFileEnumerator.GetCurrentFontFile ⟨obj, factory, font_file, .End⟩ =
      ⟨none, E_BOUNDS⟩) := by
  refine ⟨rfl, rfl, rfl, ?_, ?_, ?_⟩ <;>
    simp [PathfinderFontFileEnumerator.GetCurrentFontFile]

/-- C7: every point carried by an emitted event has its Y coordinate
negated, uniformly for `MoveTo`, `LineTo` and all three `CubicTo` points;
and `BeginFigure((10,20)) → AddLines([(30,20)]) → EndFigure(closed)`
yields exactly `[MoveTo(10,-20), LineTo(30,-20), Close]`. -/
theorem c7_y_flip (sink : PathfinderGeometrySink) (p : Point2F) (fb : Nat)
    (points : List Point2F) (beziers : List BezierSegment) :
    (sink.BeginFigure p fb).commands =
      sink.commands ++ [PathEvent.MoveTo ⟨p.x, -p.y⟩] ∧
    (sink.AddLines points).commands =
      sink.commands ++ points.map (fun q => PathEvent.LineTo ⟨q.x, -q.y⟩) ∧
    (sink.AddBeziers beziers).commands =
      sink.commands ++ beziers.map (fun b =>
        PathEvent.CubicTo ⟨b.point1.x, -b.point1.y⟩ ⟨b.point2.x, -b.point2.y⟩
          ⟨b.point3.x, -b.point3.y⟩) ∧
    runCallbacks PathfinderGeometrySink.new
      [SinkCallback.beginFigure ⟨10, 20⟩ 1, SinkCallback.addLines [⟨30, 20⟩],
        SinkCallback.endFigure D2D1_FIGURE_END_CLOSED] =
      ⟨[PathEvent.MoveTo ⟨10, -20⟩, PathEvent.LineTo ⟨30, -20⟩, PathEvent.Close]⟩ :=
  ⟨rfl, rfl, rfl, rfl⟩

/-- C8: `BeginFigure` appends exactly one `MoveTo` at the flipped start
point and nothing else; `EndFigure(closed)` appends exactly one `Close`;
`EndFigure(open)` appends nothing, so
`BeginFigure((0,0)) → EndFigure(open)` yields exactly `[MoveTo(0,0)]`. -/
theorem c8_begin_end_figure (sink : PathfinderGeometrySink) (p : Point2F)
    (fb : Nat) :
    (sink.BeginFigure p fb).commands =
      sink.commands ++ [PathEvent.MoveTo ⟨p.x, -p.y⟩] ∧
    (sink.EndFigure D2D1_FIGURE_END_CLOSED).commands =
      sink.commands ++ [PathEvent.Close] ∧
    (sink.EndFigure D2D1_FIGURE_END_OPEN).commands = sink.commands ∧
    runCallbacks PathfinderGeometrySink.new
      [SinkCallback.beginFigure ⟨0, 0⟩ 1, SinkCallback.endFigure D2D1_FIGURE_END_OPEN] =
      ⟨[PathEvent.MoveTo ⟨0, 0⟩]⟩ := by
  refine ⟨rfl, ?_, ?_, ?_⟩
  · simp [PathfinderGeometrySink.EndFigure]
  · simp [PathfinderGeometrySink.EndFigure, D2D1_FIGURE_END_OPEN, D2D1_FIGURE_END_CLOSED]
  · decide

/-- C1 (evaluation at the failing input): with the key `0` already mapped
to face `42`, a second `add_font_from_memory` call with key `0` issues all
nine engine calls of the loader chain again and replaces the catalog
entry with the freshly materialized face `99` instead of being a no-op;
`add_system_font` likewise re-runs its five engine lookups and replaces
the entry.  This contradicts the functions' own doc comments ("If this
context has already loaded a font with the same font key, nothing is
done"): neither function consults the catalog before registering. -/
theorem c1_second_call_redrives_and_replaces :
    let ctx : FontContext Nat := ⟨0, fun k => if k = 0 then some 42 else none⟩
    let eng : MemoryFontEngine := ⟨S_OK, S_OK, S_OK, S_OK, S_OK, S_OK, S_OK, S_OK, S_OK, 99⟩
    let seng : SystemFontEngine := ⟨S_OK, S_OK, WINAPI_TRUE, 4, S_OK, S_OK, S_OK, 99⟩
    (ctx.add_font_from_memory eng 0 [1, 2, 3]).result = Except.ok () ∧
    (ctx.add_font_from_memory eng 0 [1, 2, 3]).context.dwrite_font_faces 0 = some 99 ∧
    (ctx.add_font_from_memory eng 0 [1, 2, 3]).engine_calls.length = 9 ∧
    (ctx.add_system_font seng 0 "Arial").result = Except.ok () ∧
    (ctx.add_system_font seng 0 "Arial").context.dwrite_font_faces 0 = some 99 ∧
    (ctx.add_system_font seng 0 "Arial").engine_calls.length = 5 :=
  ⟨rfl, rfl, rfl, rfl, rfl, rfl⟩

/-- C2 counterexample: `CreateEnumeratorFromKey` called with the empty
key — which differs from the reserved in-memory-collection tag — still
succeeds with `S_OK` and constructs the enumerator, refuting "fails for
any other key". -/
theorem c2_counterexample :
    ([] : List Nat) ≠ PATHFINDER_FONT_COLLECTION_KEY ∧
    PathfinderFontCollectionLoader.CreateEnumeratorFromKey ⟨⟨1⟩, 7⟩ 3 [] =
      ⟨some ⟨⟨1⟩, 3, 7, .Start⟩, S_OK⟩ ∧
    SUCCEEDED S_OK = true := by
  refine ⟨by decide, rfl, rfl⟩

/-- C2 (amended): `CreateStreamFromKey` fails with `E_INVALIDARG` for
every key other than the reserved in-memory-font tag and constructs a new
stream wrapping the buffer on an exact match; `CreateEnumeratorFromKey`
ignores its key entirely and succeeds for every key, constructing a fresh
enumerator wired to the loader's single font file. -/
theorem c2_loader_key_validation (fl : PathfinderFontFileLoader)
    (cl : PathfinderFontCollectionLoader) (key : List Nat) (now factory : Nat)
    (hkey : key ≠ PATHFINDER_FONT_FILE_KEY) :
    fl.CreateStreamFromKey key now = ⟨none, E_INVALIDARG⟩ ∧
    fl.CreateStreamFromKey PATHFINDER_FONT_FILE_KEY now =
      ⟨some ⟨PathfinderComObject.construct, fl.buffer, now⟩, S_OK⟩ ∧
    cl.CreateEnumeratorFromKey factory key =
      ⟨some ⟨PathfinderComObject.construct, factory, cl.font_file, .Start⟩, S_OK⟩ := by
  refine ⟨?_, ?_, rfl⟩
  · simp [PathfinderFontFileLoader.CreateStreamFromKey, hkey]
  · simp [PathfinderFontFileLoader.CreateStreamFromKey, PathfinderFontFileStream.new]

/-- C2 witness: the amended behaviour at a concrete loader pair and the
concrete non-matching key `[0]`. -/
theorem c2_loader_key_validation_witness :
    PathfinderFontFileLoader.CreateStreamFromKey ⟨⟨1⟩, [9, 9]⟩ [0] 5 =
      ⟨none, E_INVALIDARG⟩ ∧
    PathfinderFontFileLoader.CreateStreamFromKey ⟨⟨1⟩, [9, 9]⟩
      PATHFINDER_FONT_FILE_KEY 5 =
      ⟨some ⟨PathfinderComObject.construct, [9, 9], 5⟩, S_OK⟩ ∧
    PathfinderFontCollectionLoader.CreateEnumeratorFromKey ⟨⟨1⟩, 7⟩ 3 [0] =
      ⟨some ⟨PathfinderComObject.construct, 3, 7, .Start⟩, S_OK⟩ :=
  c2_loader_key_validation ⟨⟨1⟩, [9, 9]⟩ ⟨⟨1⟩, 7⟩ [0] 5 3 (by decide)

/-- C3 counterexample: on a 10-byte buffer, the read at `offset = 5`,
`length = 2^64 - 3` has `offset + length > size` in exact arithmetic, so
the claim says it fails with OutOfBounds; the code's u64 addition wraps
to `2 ≤ 10` and the read succeeds with `S_OK`. -/
theorem c3_counterexample :
    let s : PathfinderFontFileStream :=
      ⟨⟨1⟩, [0, 1, 2, 3, 4, 5, 6, 7, 8, 9], 0⟩
    5 + (2 ^ 64 - 3) > s.buffer.length ∧
    (s.ReadFileFragment 5 (2 ^ 64 - 3)).hresult = S_OK ∧
    S_OK ≠ E_BOUNDS ∧ 5 < 2 ^ 64 ∧ 2 ^ 64 - 3 < 2 ^ 64 := by
  refine ⟨by norm_num, ?_, by decide, by norm_num, by norm_num⟩
  decide

/-- C3 (amended): for u64 `offset` and `length`, `ReadFileFragment` fails
with `E_BOUNDS` — leaving the stream untouched and the out-parameters
unwritten — exactly when `offset > size` or the wrapping u64 sum
`(offset + length) mod 2^64` exceeds `size`; otherwise it succeeds,
returning a pointer at `offset` into the shared buffer plus the fragment
context and taking one extra reference on the stream.  In particular a
read of length 0 at `offset = size` succeeds and a read at
`offset = size + 1` fails with `E_BOUNDS`. -/
theorem c3_read_fragment_bounds (s : PathfinderFontFileStream)
    (file_offset fragment_size : Nat)
    (_hoff : file_offset < 2 ^ 64) (_hsize : fragment_size < 2 ^ 64) :
    ((file_offset > s.buffer.length ∨
        (file_offset + fragment_size) % U64_MOD > s.buffer.length) →
      s.ReadFileFragment file_offset fragment_size = ⟨none, none, s, E_BOUNDS⟩) ∧
    (¬ (file_offset > s.buffer.length ∨
        (file_offset + fragment_size) % U64_MOD > s.buffer.length) →
      s.ReadFileFragment file_offset fragment_size =
        ⟨some file_offset, some file_offset,
          ⟨⟨s.object.ref_count + 1⟩, s.buffer, s.creation_time⟩, S_OK⟩) ∧
    (s.ReadFileFragment s.buffer.length 0).hresult = S_OK ∧
    (s.ReadFileFragment (s.buffer.length + 1) 0).hresult = E_BOUNDS := by
  obtain ⟨⟨rc⟩, buf, ct⟩ := s
  refine ⟨fun h => ?_, fun h => ?_, ?_, ?_⟩
  · simp only [PathfinderFontFileStream.ReadFileFragment]
    rw [if_pos h]
  · simp only [PathfinderFontFileStream.ReadFileFragment]
    rw [if_neg h]
    rfl
  · simp only [PathfinderFontFileStream.ReadFileFragment]
    rw [if_neg]
    push_neg
    exact ⟨le_refl _, by simpa using Nat.mod_le buf.length U64_MOD⟩
  · simp only [PathfinderFontFileStream.ReadFileFragment]
    rw [if_pos (Or.inl (Nat.lt_succ_self _))]

/-- C3 witness: the amended behaviour evaluated on a concrete two-byte
stream: the in-bounds read at offset 0, length 1 succeeds, pins the
stream (refcount 1 → 2), and hands back offset 0. -/
theorem c3_read_fragment_bounds_witness :
    PathfinderFontFileStream.ReadFileFragment ⟨⟨1⟩, [7, 7], 3⟩ 0 1 =
      ⟨some 0, some 0, ⟨⟨2⟩, [7, 7], 3⟩, S_OK⟩ :=
  (c3_read_fragment_bounds ⟨⟨1⟩, [7, 7], 3⟩ 0 1 (by norm_num) (by norm_num)).2.1
    (by decide)

/-- C6: `add_font_from_memory` is atomic with respect to the catalog: it
returns `Ok` exactly when all nine engine steps succeed, and the catalog
is the old map with the materialized face inserted under the key on full
success, and the unchanged old map on every error return. -/
theorem c6_add_font_from_memory_atomic {FK : Type} [DecidableEq FK]
    (self : FontContext FK) (eng : MemoryFontEngine) (font_key : FK)
    (bytes : List Nat) :
    ((self.add_font_from_memory eng font_key bytes).result = Except.ok () ↔
      eng.allSucceeded = true) ∧
    (self.add_font_from_memory eng font_key bytes).context.dwrite_font_faces =
      (if eng.allSucceeded then
        mapInsert self.dwrite_font_faces font_key eng.new_font_face
      else self.dwrite_font_faces) := by
  simp only [FontContext.add_font_from_memory, MemoryFontEngine.allSucceeded]
  by_cases h1 : SUCCEEDED eng.register_font_file_loader_result <;>
    by_cases h2 : SUCCEEDED eng.create_font_file_reference_result <;>
    by_cases h3 : SUCCEEDED eng.register_font_collection_loader_result <;>
    by_cases h4 : SUCCEEDED eng.create_font_collection_result <;>
    by_cases h5 : SUCCEEDED eng.get_font_family_result <;>
    by_cases h6 : SUCCEEDED eng.get_font_result <;>
    by_cases h7 : SUCCEEDED eng.create_font_face_result <;>
    by_cases h8 : SUCCEEDED eng.unregister_font_collection_loader_result <;>
    by_cases h9 : SUCCEEDED eng.unregister_font_file_loader_result <;>
    simp [h1, h2, h3, h4, h5, h6, h7, h8, h9]

/-- C9 counterexample: for `unitsPerEm = 1000`, `advanceWidth = 600`,
pixel size `12`, and all bearings and the vertical advance zero, the code
yields `advance = 36/5 = 7.2` but `size.width = 7` (the `as u32` cast
truncates), while the claim's formula
`size.width = advance - rightSideBearing*scale - leftSideBearing*scale`
demands `7.2`. -/
theorem c9_counterexample :
    let ctx : FontContext Nat := ⟨0, fun k => if k = 0 then some 1 else none⟩
    let eng : GlyphMetricsEngine := ⟨⟨1000⟩, S_OK, ⟨0, 600, 0, 0, 0, 0⟩⟩
    (ctx.glyph_dimensions eng ⟨0, 12⟩ ⟨3⟩ false).1 =
      some ⟨36 / 5, ⟨0, 0⟩, 7, 0⟩ ∧
    ((7 : ℚ) ≠ 36 / 5 - 0 - 0) := by
  constructor
  · simp only [FontContext.glyph_dimensions]
    norm_num [SUCCEEDED, S_OK, f32_as_u32]
    decide
  · norm_num

/-- C9 (amended): when the key is present and the metrics call succeeds,
with `scale = pixelSize / unitsPerEm` the result has
`advance = rawAdvanceWidth * scale` and
`origin = (leftSideBearing * scale, bottomSideBearing * scale)` exactly
as claimed, while `size.width` is the saturating u32 truncation of
`advance - rightSideBearing*scale - leftSideBearing*scale` and
`size.height` analogously from the vertical advance and top/bottom
bearings. -/
theorem c9_glyph_dimensions_formulas {FK : Type} (self : FontContext FK)
    (eng : GlyphMetricsEngine) (font_instance : FontInstance FK)
    (glyph_key : GlyphKey) (exact_flag : Bool) (face : Nat)
    (hface : self.dwrite_font_faces font_instance.font_key = some face)
    (hres : SUCCEEDED eng.get_design_glyph_metrics_result = true) :
    (self.glyph_dimensions eng font_instance glyph_key exact_flag).1 =
      some
        { advance := (eng.glyph_metrics.advanceWidth : ℚ) *
            (font_instance.size / (eng.font_metrics.designUnitsPerEm : ℚ))
          origin :=
            ⟨(eng.glyph_metrics.leftSideBearing : ℚ) *
              (font_instance.size / (eng.font_metrics.designUnitsPerEm : ℚ)),
             (eng.glyph_metrics.bottomSideBearing : ℚ) *
              (font_instance.size / (eng.font_metrics.designUnitsPerEm : ℚ))⟩
          size_width := f32_as_u32
            ((eng.glyph_metrics.advanceWidth : ℚ) *
              (font_instance.size / (eng.font_metrics.designUnitsPerEm : ℚ)) -
             (eng.glyph_metrics.rightSideBearing : ℚ) *
              (font_instance.size / (eng.font_metrics.designUnitsPerEm : ℚ)) -
             (eng.glyph_metrics.leftSideBearing : ℚ) *
              (font_instance.size / (eng.font_metrics.designUnitsPerEm : ℚ)))
          size_height := f32_as_u32
            ((eng.glyph_metrics.advanceHeight : ℚ) *
              (font_instance.size / (eng.font_metrics.designUnitsPerEm : ℚ)) -
             (eng.glyph_metrics.bottomSideBearing : ℚ) *
              (font_instance.size / (eng.font_metrics.designUnitsPerEm : ℚ)) -
             (eng.glyph_metrics.topSideBearing : ℚ) *
              (font_instance.size / (eng.font_metrics.designUnitsPerEm : ℚ))) } := by
  simp only [FontContext.glyph_dimensions, hface, hres, not_true_eq_false,
    if_false, ite_false]
  simp only [mul_div_assoc]

/-- C9 witness: the amended formulas evaluated at the concrete
`unitsPerEm = 1000`, `advanceWidth = 600`, pixel size 12 instance. -/
theorem c9_glyph_dimensions_formulas_witness :
    ((⟨0, fun k => if k = 0 then some 1 else none⟩ : FontContext Nat).glyph_dimensions
        ⟨⟨1000⟩, S_OK, ⟨0, 600, 0, 0, 0, 0⟩⟩ ⟨0, 12⟩ ⟨3⟩ false).1 =
      some
        { advance := (600 : ℚ) * ((12 : ℚ) / (1000 : ℚ))
          origin := ⟨(0 : ℚ) * ((12 : ℚ) / (1000 : ℚ)),
                     (0 : ℚ) * ((12 : ℚ) / (1000 : ℚ))⟩
          size_width := f32_as_u32
            ((600 : ℚ) * ((12 : ℚ) / (1000 : ℚ)) -
             (0 : ℚ) * ((12 : ℚ) / (1000 : ℚ)) -
             (0 : ℚ) * ((12 : ℚ) / (1000 : ℚ)))
          size_height := f32_as_u32
            ((0 : ℚ) * ((12 : ℚ) / (1000 : ℚ)) -
             (0 : ℚ) * ((12 : ℚ) / (1000 : ℚ)) -
             (0 : ℚ) * ((12 : ℚ) / (1000 : ℚ))) } := by
  have h := @c9_glyph_dimensions_formulas Nat
    ⟨0, fun k => if k = 0 then some 1 else none⟩
    ⟨⟨1000⟩, S_OK, ⟨0, 600, 0, 0, 0, 0⟩⟩ ⟨0, 12⟩ ⟨3⟩ false 1 (by simp) rfl
  simpa using h

/-- C10: the query operations `glyph_dimensions`, `glyph_outline`,
`load_glyph_indices_for_characters` and `pixels_per_unit` never insert,
remove, or replace a catalog entry: on both their success and failure
paths the key-to-face map after the call equals the map before it. -/
theorem c10_queries_preserve_catalog {FK : Type} (self : FontContext FK)
    (e1 : GlyphMetricsEngine) (e2 : GlyphOutlineEngine) (e3 : GlyphIndicesEngine)
    (m : DWRITE_FONT_METRICS) (font_instance : FontInstance FK)
    (glyph_key : GlyphKey) (exact_flag : Bool) (characters : List Nat) :
    (self.glyph_dimensions e1 font_instance glyph_key exact_flag).2.dwrite_font_faces =
      self.dwrite_font_faces ∧
    (self.glyph_outline e2 font_instance glyph_key).2.dwrite_font_faces =
      self.dwrite_font_faces ∧
    (self.load_glyph_indices_for_characters e3 font_instance characters).2.dwrite_font_faces =
      self.dwrite_font_faces ∧
    (self.pixels_per_unit m font_instance).2.dwrite_font_faces =
      self.dwrite_font_faces := by
  refine ⟨?_, ?_, ?_, ?_⟩ <;>
    simp only [FontContext.glyph_dimensions, FontContext.glyph_outline,
      FontContext.load_glyph_indices_for_characters, FontContext.pixels_per_unit] <;>
    cases self.dwrite_font_faces font_instance.font_key <;>
    simp <;> split <;> rfl

end Pathfinder
